import Mathlib

/-! esphome-ratgdo: the `ratgdo.h` component header

A shallow embedding of `components/ratgdo/ratgdo.h`: the `Command` opcode
table, the raw-integer comparison operators, the obstruction interrupt store,
the field initialisers of `RATGDOComponent` and its inline setters.

Conventions
* machine integers are `Nat`/`Int` reduced explicitly modulo `2^w`;
* a `float` value is represented by the rational number it denotes (the
  header only stores and compares floats; where an arithmetic result is
  needed the rounding function is an explicit parameter); where NaN matters,
  in the comparison that gates a notification, the type `cfloat` adds NaN and
  the infinities;
* code of the repository that the header only declares (`observable.h`,
  `enum.h`, `ratgdo_state.h`, the bodies in `ratgdo.cpp`) is modelled from
  the specification and marked as such.
-/

namespace esphome
namespace ratgdo

/-! ## Constants -/

/-- Length of a wire packet: `static const uint8_t PACKET_LENGTH = 19;`. -/
def PACKET_LENGTH : Nat := 19

/-- Sentinel position: `const float DOOR_POSITION_UNKNOWN = -1.0;`. -/
def DOOR_POSITION_UNKNOWN : ℚ := -1

/-- Sentinel travel distance: `const float DOOR_DELTA_UNKNOWN = -2.0;`. -/
def DOOR_DELTA_UNKNOWN : ℚ := -2

/-! ## `ENUM(Command, uint16_t, ...)` -/

/-- The enumerators of `ENUM(Command, uint16_t, ...)`, in declaration order. -/
inductive Command
  | UNKNOWN
  | GET_STATUS
  | STATUS
  | GET_EXT_STATUS
  | EXT_STATUS
  | OBST_1
  | OBST_2
  | LEARN_2
  | LOCK
  | DOOR_ACTION
  | LIGHT
  | MOTOR_ON
  | MOTION
  | LEARN_1
  | PING
  | PING_RESP
  | TTC_GET_DURATION
  | TTC_DURATION
  | TTC_SET_DURATION
  | TTC_CANCEL
  | TTC_COUNTDOWN
  | GET_OPENINGS
  | OPENINGS
  deriving DecidableEq, Repr

namespace Command

/-- The value `static_cast<uint16_t>(cmd)` of each enumerator, as listed in the
`ENUM(Command, uint16_t, ...)` table. -/
def toUInt16 : Command → Nat
  | UNKNOWN => 0x000
  | GET_STATUS => 0x080
  | STATUS => 0x081
  | GET_EXT_STATUS => 0x0a0
  | EXT_STATUS => 0x0a1
  | OBST_1 => 0x084
  | OBST_2 => 0x085
  | LEARN_2 => 0x181
  | LOCK => 0x18c
  | DOOR_ACTION => 0x280
  | LIGHT => 0x281
  | MOTOR_ON => 0x284
  | MOTION => 0x285
  | LEARN_1 => 0x391
  | PING => 0x392
  | PING_RESP => 0x393
  | TTC_GET_DURATION => 0x400
  | TTC_DURATION => 0x401
  | TTC_SET_DURATION => 0x402
  | TTC_CANCEL => 0x408
  | TTC_COUNTDOWN => 0x40a
  | GET_OPENINGS => 0x48b
  | OPENINGS => 0x48c

/-- All enumerators of the table, in declaration order. -/
def all : List Command :=
  [UNKNOWN, GET_STATUS, STATUS, GET_EXT_STATUS, EXT_STATUS, OBST_1, OBST_2,
   LEARN_2, LOCK, DOOR_ACTION, LIGHT, MOTOR_ON, MOTION, LEARN_1, PING, PING_RESP,
   TTC_GET_DURATION, TTC_DURATION, TTC_SET_DURATION, TTC_CANCEL, TTC_COUNTDOWN,
   GET_OPENINGS, OPENINGS]

end Command

/-- Modelled from the spec: the `ENUM` generator of `enum.h`, which produces the
integer-to-enumerator conversion, is not part of the available sources. The
specification says of `Command`: "Closed set; unknown values map to UNKNOWN."
The conversion therefore returns the enumerator of the table whose opcode is
the argument, and `UNKNOWN` when there is none. The argument is a `uint16_t`. -/
def to_Command (n : Nat) : Command :=
  match Command.all.find? (fun c => Command.toUInt16 c == n % 2 ^ 16) with
  | some c => c
  | none => Command.UNKNOWN

/-- The overload `inline bool operator==(const uint16_t cmd_i, const Command& cmd_e)`
with body `return cmd_i == static_cast<uint16_t>(cmd_e);`. -/
def operator_eq_int_cmd (cmd_i : Nat) (cmd_e : Command) : Bool :=
  cmd_i % 2 ^ 16 == Command.toUInt16 cmd_e

/-- The overload `inline bool operator==(const Command& cmd_e, const uint16_t cmd_i)`
with body `return cmd_i == static_cast<uint16_t>(cmd_e);`. -/
def operator_eq_cmd_int (cmd_e : Command) (cmd_i : Nat) : Bool :=
  cmd_i % 2 ^ 16 == Command.toUInt16 cmd_e

/-! ## `struct RATGDOStore` -/

/-- Largest value of the 32-bit `int` of the target. -/
def INT_MAX : Int := 2 ^ 31 - 1

/-- Two's complement reduction of an integer to the 32-bit `int` range. -/
def wrap_int (x : Int) : Int := (x + 2 ^ 31) % 2 ^ 32 - 2 ^ 31

/-- The interrupt store `struct RATGDOStore` with its single member
`int obstruction_low_count = 0; // count obstruction low pulses`. -/
structure RATGDOStore where
  obstruction_low_count : Int := 0
  deriving DecidableEq, Repr

/-- The handler `static void isr_obstruction(RATGDOStore* arg)` with body
`arg->obstruction_low_count++;`. The result of `++` on an `int` is reduced to
32 bits (the increment of `INT_MAX` itself is undefined in C++). -/
def RATGDOStore.isr_obstruction (arg : RATGDOStore) : RATGDOStore :=
  { arg with obstruction_low_count := wrap_int (arg.obstruction_low_count + 1) }

/-! ## State enumerations (`ratgdo_state.h`) -/

/-- Modelled from the spec: `ratgdo_state.h` is not part of the available
sources. The specification gives `DoorState` as the enumeration
{UNKNOWN, OPEN, CLOSED, OPENING, CLOSING, STOPPED}. -/
inductive DoorState
  | UNKNOWN | OPEN | CLOSED | OPENING | CLOSING | STOPPED
  deriving DecidableEq, Repr

/-- Modelled from the spec: `ratgdo_state.h` is not part of the available
sources. The specification calls `LightState` a small closed enumeration; the
header names only its member `UNKNOWN`, the other members are kept as numbered
alternatives. -/
inductive LightState
  | UNKNOWN | member (k : Nat)
  deriving DecidableEq, Repr

/-- Modelled from the spec: `LockState` of the missing `ratgdo_state.h`, a small
closed enumeration of which the header names only `UNKNOWN`. -/
inductive LockState
  | UNKNOWN | member (k : Nat)
  deriving DecidableEq, Repr

/-- Modelled from the spec: `HoldState` of the missing `ratgdo_state.h`, a small
closed enumeration of which the header names only `UNKNOWN`. -/
inductive HoldState
  | UNKNOWN | member (k : Nat)
  deriving DecidableEq, Repr

/-- Modelled from the spec: `ObstructionState` of the missing `ratgdo_state.h`;
the specification names the members OBSTRUCTED and CLEAR, the header names
`UNKNOWN`. -/
inductive ObstructionState
  | UNKNOWN | OBSTRUCTED | CLEAR
  deriving DecidableEq, Repr

/-- Modelled from the spec: `MotorState` of the missing `ratgdo_state.h`, a small
closed enumeration of which the header names only `UNKNOWN`. -/
inductive MotorState
  | UNKNOWN | member (k : Nat)
  deriving DecidableEq, Repr

/-- Modelled from the spec: `ButtonState` of the missing `ratgdo_state.h`, a small
closed enumeration of which the header names only `UNKNOWN`. -/
inductive ButtonState
  | UNKNOWN | member (k : Nat)
  deriving DecidableEq, Repr

/-- Modelled from the spec: `MotionState` of the missing `ratgdo_state.h`, a small
closed enumeration of which the header names only `UNKNOWN`. -/
inductive MotionState
  | UNKNOWN | member (k : Nat)
  deriving DecidableEq, Repr

/-! ## `observable<T>` (`observable.h`) -/

/-- Modelled from the spec: `observable.h` is not part of the available sources.
The specification describes "a value container that stores a value and a set of
subscriber callbacks". A subscriber is identified by a number; `observers_`
lists the subscribers in subscription order. -/
structure observable (α : Type) where
  value_ : α
  observers_ : List Nat := []
  deriving DecidableEq, Repr

namespace observable

/-- Modelled from the spec: registration of a subscriber of the missing
`observable.h`; subscription order is preserved. -/
def subscribe {α : Type} (o : observable α) (f : Nat) : observable α :=
  { o with observers_ := o.observers_ ++ [f] }

/-- Modelled from the spec: assignment to an observable of the missing
`observable.h`: "`set(v)` invokes subscribers only if `v` differs from the stored
value (by equality), preserving subscription order, synchronously". The result
is the container after the call together with the callback invocations made,
each a pair of the subscriber and the value it was handed. -/
def set {α : Type} [DecidableEq α] (o : observable α) (v : α) :
    observable α × List (Nat × α) :=
  if v ≠ o.value_ then
    ({ o with value_ := v }, o.observers_.map (fun f => (f, v)))
  else
    (o, [])

/-- Modelled from the spec: the same assignment for a value type whose C++
comparison `v != stored` is the function `ne`, which need not be the negation
of a reflexive equality (for `float` it is not). `set` is the case in which
`ne` decides inequality. -/
def assign {α : Type} (ne : α → α → Bool) (o : observable α) (v : α) :
    observable α × List (Nat × α) :=
  if ne v o.value_ then
    ({ o with value_ := v }, o.observers_.map (fun f => (f, v)))
  else
    (o, [])

end observable

/-! ## Values of type `float` -/

/-- A value of the C++ type `float`: a number, represented by the rational it
denotes, an infinity, or NaN. -/
inductive cfloat
  | num (q : ℚ)
  | inf (negative : Bool)
  | nan
  deriving DecidableEq, Repr

/-- The comparison `a != b` of two `float` values: NaN differs from every value,
itself included; otherwise the values are compared. -/
def cfloat.ne : cfloat → cfloat → Bool
  | cfloat.nan, _ => true
  | _, cfloat.nan => true
  | cfloat.num p, cfloat.num q => decide (p ≠ q)
  | cfloat.inf a, cfloat.inf b => a != b
  | cfloat.num _, cfloat.inf _ => true
  | cfloat.inf _, cfloat.num _ => true

/-- The assignment `this->door_position = door_position;` of
`void set_door_position(float door_position)` on the `observable<float>` member
`door_position`, for every `float` argument, NaN included. Returns the member
after the call and the callback invocations made. -/
def set_door_position_float (door_position_ : observable cfloat) (door_position : cfloat) :
    observable cfloat × List (Nat × cfloat) :=
  door_position_.assign cfloat.ne door_position

/-! ## `class RATGDOComponent` -/

/-- The data members of `class RATGDOComponent` that carry an initialiser in the
header, with those initialisers as defaults. The pin pointers, the serial port,
`tx_packet_`, `query_status_flags_` and the two `OnceCallbacks` members have no
initial value in the header and are left out. -/
structure RATGDOComponent where
  rolling_code_counter : observable Nat := { value_ := 0 }
  start_opening : ℚ := -1
  opening_duration : observable ℚ := { value_ := 0 }
  start_closing : ℚ := -1
  closing_duration : observable ℚ := { value_ := 0 }
  openings : observable Nat := { value_ := 0 }
  door_state : observable DoorState := { value_ := DoorState.UNKNOWN }
  door_position : observable ℚ := { value_ := DOOR_POSITION_UNKNOWN }
  door_start_moving : Nat := 0
  door_start_position : ℚ := DOOR_POSITION_UNKNOWN
  door_move_delta : ℚ := DOOR_DELTA_UNKNOWN
  light_state : observable LightState := { value_ := LightState.UNKNOWN }
  lock_state : observable LockState := { value_ := LockState.UNKNOWN }
  hold_state : observable HoldState := { value_ := HoldState.UNKNOWN }
  ttc_time_seconds : observable Nat := { value_ := 0xFFFF }
  obstruction_state : observable ObstructionState := { value_ := ObstructionState.UNKNOWN }
  motor_state : observable MotorState := { value_ := MotorState.UNKNOWN }
  button_state : observable ButtonState := { value_ := ButtonState.UNKNOWN }
  motion_state : observable MotionState := { value_ := MotionState.UNKNOWN }
  sync_failed : observable Bool := { value_ := false }
  transmit_pending_ : Bool := false
  isr_store_ : RATGDOStore := {}
  obstruction_from_status_ : Bool := false
  restore_ttc_ : Bool := false
  restore_hold_state_ : Bool := false
  client_id_ : Nat := 0x539
  deriving DecidableEq, Repr

namespace RATGDOComponent

/-- A freshly constructed component: every member holds its initialiser. -/
def init : RATGDOComponent := {}

/-- The setter `void set_client_id(uint64_t client_id)` with body
`this->client_id_ = client_id & 0xffffff;`. The argument is a `uint64_t`. -/
def set_client_id (c : RATGDOComponent) (client_id : Nat) : RATGDOComponent :=
  { c with client_id_ := (client_id % 2 ^ 64) &&& 0xffffff }

/-- The setter `void set_door_position(float door_position)` with body
`this->door_position = door_position;`, an assignment to the observable
member. Returns the component and the callback invocations made. -/
def set_door_position (c : RATGDOComponent) (door_position : ℚ) :
    RATGDOComponent × List (Nat × ℚ) :=
  let r := c.door_position.set door_position
  ({ c with door_position := r.1 }, r.2)

/-- The interrupt handler applied to the store `isr_store_` of the component,
the only object the handler receives. -/
def isr (c : RATGDOComponent) : RATGDOComponent :=
  { c with isr_store_ := c.isr_store_.isr_obstruction }

/-! ### Rolling code counter (`ratgdo.cpp`) -/

/-- The library function `clamp(x, lo, hi)` on float values. -/
def clamp (x lo hi : ℚ) : ℚ :=
  if x < lo then lo else if hi < x then hi else x

/-- Modelled from the spec: the body of `door_position_update()` lives in
`ratgdo.cpp`, which is not part of the available sources. The specification
says it "computes `door_position = start_position + elapsed/calibrated_duration
* direction`, clamped to [0,1]" and that "if no calibration exists yet, position
stays UNKNOWN"; a duration of `0` (the initialiser of `opening_duration` and
`closing_duration`) stands for a missing calibration. `rnd` is the rounding of
float arithmetic. Returns the component and the callback invocations made. -/
def door_position_update (rnd : ℚ → ℚ) (c : RATGDOComponent)
    (elapsed calibrated_duration direction : ℚ) : RATGDOComponent × List (Nat × ℚ) :=
  if calibrated_duration = 0 then
    (c, [])
  else
    let position :=
      rnd (c.door_start_position + rnd (rnd (elapsed / calibrated_duration) * direction))
    let r := c.door_position.set (clamp position 0 1)
    ({ c with door_position := r.1 }, r.2)

/-- Modelled from the spec: the travel distance stored in `door_move_delta` is
computed in the missing `ratgdo.cpp`; the specification calls it the "signed
float representing position distance still to travel", the float difference of
a target and a current position. `rnd` is the rounding of float arithmetic. -/
def travel_distance (rnd : ℚ → ℚ) (target position : ℚ) : ℚ :=
  rnd (target - position)

/-- The range of a door position: a value of the closed interval [0.0, 1.0] or
the sentinel `DOOR_POSITION_UNKNOWN`. -/
def position_in_range (p : ℚ) : Prop :=
  (0 ≤ p ∧ p ≤ 1) ∨ p = DOOR_POSITION_UNKNOWN

instance (p : ℚ) : Decidable (position_in_range p) := by
  unfold position_in_range; infer_instance

end RATGDOComponent

/-! ## Properties of the opcode table -/

/-- The opcodes of the table are pairwise distinct. -/
theorem Command.toUInt16_injective (c1 c2 : Command)
    (h : Command.toUInt16 c1 = Command.toUInt16 c2) : c1 = c2 := by
  cases c1 <;> cases c2 <;> first | rfl | (exfalso; revert h; decide)

/-- Every opcode of the table fits in 16 bits. -/
theorem Command.toUInt16_lt (c : Command) : Command.toUInt16 c < 2 ^ 16 := by
  cases c <;> decide

/-- Claim C4. Integer-to-Command conversion is a closed, total mapping: for
every 16-bit integer `n`, `to_Command n` is the command whose opcode is `n` when
`n` is one of the 23 listed opcodes, and `UNKNOWN` (opcode `0x000`) for every
other `n`; in particular `0x080`, `0x081`, `0x280` and `0x402` convert to
`GET_STATUS`, `STATUS`, `DOOR_ACTION` and `TTC_SET_DURATION`. -/
theorem to_Command_closed_total (n : Nat) (hn : n < 2 ^ 16) :
    (∀ c : Command, Command.toUInt16 c = n → to_Command n = c) ∧
    ((∀ c : Command, Command.toUInt16 c ≠ n) → to_Command n = Command.UNKNOWN) ∧
    (to_Command n = Command.UNKNOWN ∨ Command.toUInt16 (to_Command n) = n) ∧
    Command.all.length = 23 ∧
    Command.toUInt16 Command.UNKNOWN = 0x000 ∧
    to_Command 0x080 = Command.GET_STATUS ∧
    to_Command 0x081 = Command.STATUS ∧
    to_Command 0x280 = Command.DOOR_ACTION ∧
    to_Command 0x402 = Command.TTC_SET_DURATION := by
  have hmod : n % 2 ^ 16 = n := Nat.mod_eq_of_lt hn
  have key : ∀ c : Command, Command.toUInt16 c = n → to_Command n = c := by
    intro c hc
    subst hc
    cases c <;> rfl
  have none_case : (∀ c : Command, Command.toUInt16 c ≠ n) →
      to_Command n = Command.UNKNOWN := by
    intro hall
    unfold to_Command
    rw [hmod]
    have hnone : Command.all.find? (fun c => Command.toUInt16 c == n) = none := by
      rw [List.find?_eq_none]
      intro c _ hc
      exact hall c (by simpa using hc)
    rw [hnone]
  refine ⟨key, none_case, ?_, rfl, rfl, rfl, rfl, rfl, rfl⟩
  by_cases hex : ∃ c : Command, Command.toUInt16 c = n
  · obtain ⟨c, hc⟩ := hex
    right
    rw [key c hc]
    exact hc
  · left
    exact none_case (fun c hc => hex ⟨c, hc⟩)

/-- Witness of C4 at the opcode `0x280` of `DOOR_ACTION`. -/
theorem to_Command_closed_total_witness :
    (0x280 : Nat) < 2 ^ 16 ∧ to_Command 0x280 = Command.DOOR_ACTION :=
  ⟨by decide, (to_Command_closed_total 0x280 (by decide)).1 Command.DOOR_ACTION rfl⟩

/-- Claim C9. Raw-integer comparison identifies at most one command: for every
16-bit integer `n` and commands `c`, `c1`, `c2`, both overloads of `operator==`
return the same result, which is true exactly when `n` equals the opcode of
`c`; and if `n == c1` and `n == c2` then `c1 = c2`. -/
theorem operator_eq_identifies_one (n : Nat) (hn : n < 2 ^ 16) (c c1 c2 : Command) :
    operator_eq_int_cmd n c = operator_eq_cmd_int c n ∧
    (operator_eq_int_cmd n c = true ↔ n = Command.toUInt16 c) ∧
    (operator_eq_int_cmd n c1 = true → operator_eq_int_cmd n c2 = true → c1 = c2) := by
  have hmod : n % 2 ^ 16 = n := Nat.mod_eq_of_lt hn
  have hiff : ∀ d : Command, operator_eq_int_cmd n d = true ↔ n = Command.toUInt16 d := by
    intro d
    unfold operator_eq_int_cmd
    rw [hmod]
    simp
  refine ⟨rfl, hiff c, ?_⟩
  intro h1 h2
  apply Command.toUInt16_injective
  rw [← (hiff c1).1 h1, ← (hiff c2).1 h2]

/-- Witness of C9 at `n = 0x081`, the opcode of `STATUS`. -/
theorem operator_eq_identifies_one_witness :
    (0x081 : Nat) < 2 ^ 16 ∧
    operator_eq_int_cmd 0x081 Command.STATUS = true ∧
    (operator_eq_int_cmd 0x081 Command.STATUS = true →
      operator_eq_int_cmd 0x081 Command.STATUS = true → Command.STATUS = Command.STATUS) :=
  ⟨by decide, by decide,
   (operator_eq_identifies_one 0x081 (by decide)
      Command.STATUS Command.STATUS Command.STATUS).2.2⟩

/-! ## The client id -/

/-- Masking with `0xffffff` keeps the low 24 bits. -/
theorem land_ffffff (x : Nat) : x &&& 0xffffff = x % 2 ^ 24 :=
  Nat.and_pow_two_sub_one_eq_mod x 24

/-- The client id stored by `set_client_id`. -/
theorem client_id_set_client_id (c : RATGDOComponent) (x : Nat) :
    (c.set_client_id x).client_id_ = x % 2 ^ 24 := by
  show (x % 2 ^ 64) &&& 0xffffff = x % 2 ^ 24
  rw [land_ffffff]
  exact Nat.mod_mod_of_dvd x (by norm_num : (2 : Nat) ^ 24 ∣ 2 ^ 64)

/-- The bound `client_id_ < 2^24` is preserved by any sequence of calls of
`set_client_id`. -/
theorem client_id_foldl_lt (xs : List Nat) (c : RATGDOComponent)
    (h : c.client_id_ < 2 ^ 24) :
    (xs.foldl RATGDOComponent.set_client_id c).client_id_ < 2 ^ 24 := by
  induction xs generalizing c with
  | nil => exact h
  | cons x xs ih =>
    apply ih
    rw [client_id_set_client_id]
    exact Nat.mod_lt _ (by norm_num)

/-- Claim C3. The client id is always a 24-bit value: for every argument `x`
(which the parameter type reduces to 64 bits), after `set_client_id(x)` the stored `client_id_` equals `x mod 2^24`
(`x & 0xffffff`), hence is below `2^24` and equals `x` itself whenever
`x < 2^24`; the default client id `0x539` satisfies the bound, and the bound
holds after any sequence of `set_client_id` calls on a fresh component. -/
theorem set_client_id_24bit (c : RATGDOComponent) (x : Nat) (xs : List Nat) :
    (c.set_client_id x).client_id_ = x % 2 ^ 24 ∧
    (c.set_client_id x).client_id_ = x &&& 0xffffff ∧
    (c.set_client_id x).client_id_ < 2 ^ 24 ∧
    (x < 2 ^ 24 → (c.set_client_id x).client_id_ = x) ∧
    RATGDOComponent.init.client_id_ = 0x539 ∧
    RATGDOComponent.init.client_id_ < 2 ^ 24 ∧
    (xs.foldl RATGDOComponent.set_client_id RATGDOComponent.init).client_id_ < 2 ^ 24 := by
  have h := client_id_set_client_id c x
  refine ⟨h, ?_, ?_, ?_, rfl, by decide, client_id_foldl_lt xs _ (by decide)⟩
  · rw [h, land_ffffff]
  · rw [h]; exact Nat.mod_lt _ (by norm_num)
  · intro hlt
    rw [h]; exact Nat.mod_eq_of_lt hlt

/-- Witness of C3 at the argument `0x1234567`, which does not fit in 24 bits,
after earlier calls with `0xffffffff` and `7`. -/
theorem set_client_id_24bit_witness :
    (RATGDOComponent.init.set_client_id 0x1234567).client_id_ = 0x234567 ∧
    ((0x539 : Nat) < 2 ^ 24 → (RATGDOComponent.init.set_client_id 0x539).client_id_ = 0x539) ∧
    (([0xffffffff, 7] : List Nat).foldl RATGDOComponent.set_client_id
      RATGDOComponent.init).client_id_ < 2 ^ 24 :=
  ⟨(set_client_id_24bit RATGDOComponent.init 0x1234567 [0xffffffff, 7]).1,
   (set_client_id_24bit RATGDOComponent.init 0x539 []).2.2.2.1,
   (set_client_id_24bit RATGDOComponent.init 0x1234567 [0xffffffff, 7]).2.2.2.2.2.2⟩

/-! ## The obstruction interrupt handler -/

/-- Reduction to the `int` range leaves a value of that range unchanged. -/
theorem wrap_int_of_range (x : Int) (hlo : -2 ^ 31 ≤ x) (hhi : x ≤ INT_MAX) :
    wrap_int x = x := by
  unfold wrap_int
  unfold INT_MAX at hhi
  rw [Int.emod_eq_of_lt (by omega) (by omega)]
  omega

/-- One invocation of the handler on a component whose count is below the
maximum: the count grows by one and nothing else changes. -/
theorem isr_step (c : RATGDOComponent)
    (hlo : -2 ^ 31 ≤ c.isr_store_.obstruction_low_count)
    (hhi : c.isr_store_.obstruction_low_count < INT_MAX) :
    c.isr = { c with isr_store_ :=
      { obstruction_low_count := c.isr_store_.obstruction_low_count + 1 } } := by
  unfold RATGDOComponent.isr RATGDOStore.isr_obstruction
  rw [wrap_int_of_range _ (by omega) (by omega)]

/-- The effect of `k` consecutive invocations of the handler. -/
theorem isr_iterate (k : Nat) (c : RATGDOComponent)
    (hlo : -2 ^ 31 ≤ c.isr_store_.obstruction_low_count)
    (hhi : c.isr_store_.obstruction_low_count + k ≤ INT_MAX) :
    RATGDOComponent.isr^[k] c = { c with isr_store_ :=
      { obstruction_low_count := c.isr_store_.obstruction_low_count + k } } := by
  induction k generalizing c with
  | zero => simp
  | succ k ih =>
    rw [Function.iterate_succ_apply, isr_step c hlo (by push_cast at hhi; omega)]
    rw [ih _ (by simp only; omega) (by simp only; push_cast at hhi; omega)]
    simp only [RATGDOComponent.mk.injEq, RATGDOStore.mk.injEq, true_and, and_true]
    push_cast
    omega

/-- Claim C7. The obstruction interrupt handler performs only an increment: for
every store whose `obstruction_low_count` is an `int` below the maximum `int`
value, `isr_obstruction` leaves the count equal to its previous value plus
exactly 1; applied to the store of a component it changes no other member of
the component; and `k` consecutive invocations, each starting below the
maximum, raise the count by exactly `k` and change nothing else. -/
theorem isr_obstruction_only_increments (c : RATGDOComponent) (k : Nat)
    (hlo : -2 ^ 31 ≤ c.isr_store_.obstruction_low_count) :
    (c.isr_store_.obstruction_low_count < INT_MAX →
      (c.isr_store_.isr_obstruction).obstruction_low_count =
        c.isr_store_.obstruction_low_count + 1 ∧
      c.isr = { c with isr_store_ :=
        { obstruction_low_count := c.isr_store_.obstruction_low_count + 1 } }) ∧
    (c.isr_store_.obstruction_low_count + k ≤ INT_MAX →
      (RATGDOComponent.isr^[k] c).isr_store_.obstruction_low_count =
        c.isr_store_.obstruction_low_count + k ∧
      RATGDOComponent.isr^[k] c = { c with isr_store_ :=
        { obstruction_low_count := c.isr_store_.obstruction_low_count + k } }) := by
  constructor
  · intro hhi
    have h := isr_step c hlo hhi
    refine ⟨?_, h⟩
    have h2 := congrArg (fun d => d.isr_store_.obstruction_low_count) h
    exact h2
  · intro hhi
    have h := isr_iterate k c hlo hhi
    refine ⟨?_, h⟩
    rw [h]

/-- Witness of C7 on a fresh component (count `0`) with `k = 3`. -/
theorem isr_obstruction_only_increments_witness :
    (-2 ^ 31 ≤ RATGDOComponent.init.isr_store_.obstruction_low_count) ∧
    (RATGDOComponent.init.isr_store_.obstruction_low_count + (3 : Nat) ≤ INT_MAX) ∧
    (RATGDOComponent.isr^[3] RATGDOComponent.init).isr_store_.obstruction_low_count = 3 ∧
    RATGDOComponent.isr^[3] RATGDOComponent.init =
      { RATGDOComponent.init with isr_store_ := { obstruction_low_count := 3 } } :=
  ⟨by decide, by decide,
   ((isr_obstruction_only_increments RATGDOComponent.init 3 (by decide)).2 (by decide)).1,
   ((isr_obstruction_only_increments RATGDOComponent.init 3 (by decide)).2 (by decide)).2⟩

/-! ## The initial state -/

/-- Claim C8. Initial state of a freshly constructed component: `door_state` is
`DoorState::UNKNOWN`, `door_position` is the sentinel `-1.0`,
`door_start_position` is `-1.0`, `door_move_delta` is the sentinel `-2.0`,
`ttc_time_seconds` is `0xFFFF`, `rolling_code_counter` is 0, `openings` is 0,
`sync_failed` is false, `transmit_pending_` is false, and the light, lock, hold,
obstruction, motor, button and motion states are all `UNKNOWN`. -/
theorem init_state :
    RATGDOComponent.init.door_state.value_ = DoorState.UNKNOWN ∧
    RATGDOComponent.init.door_position.value_ = -1 ∧
    RATGDOComponent.init.door_position.value_ = DOOR_POSITION_UNKNOWN ∧
    RATGDOComponent.init.door_start_position = -1 ∧
    RATGDOComponent.init.door_move_delta = -2 ∧
    RATGDOComponent.init.door_move_delta = DOOR_DELTA_UNKNOWN ∧
    RATGDOComponent.init.ttc_time_seconds.value_ = 0xFFFF ∧
    RATGDOComponent.init.rolling_code_counter.value_ = 0 ∧
    RATGDOComponent.init.openings.value_ = 0 ∧
    RATGDOComponent.init.sync_failed.value_ = false ∧
    RATGDOComponent.init.transmit_pending_ = false ∧
    RATGDOComponent.init.light_state.value_ = LightState.UNKNOWN ∧
    RATGDOComponent.init.lock_state.value_ = LockState.UNKNOWN ∧
    RATGDOComponent.init.hold_state.value_ = HoldState.UNKNOWN ∧
    RATGDOComponent.init.obstruction_state.value_ = ObstructionState.UNKNOWN ∧
    RATGDOComponent.init.motor_state.value_ = MotorState.UNKNOWN ∧
    RATGDOComponent.init.button_state.value_ = ButtonState.UNKNOWN ∧
    RATGDOComponent.init.motion_state.value_ = MotionState.UNKNOWN :=
  ⟨rfl, rfl, rfl, rfl, rfl, rfl, rfl, rfl, rfl, rfl, rfl, rfl, rfl, rfl, rfl, rfl, rfl, rfl⟩

/-! ## Change-gated notification -/

/-- The value stored after an assignment is the assigned value. -/
theorem observable.value_set {α : Type} [DecidableEq α] (o : observable α) (v : α) :
    (o.set v).1.value_ = v := by
  unfold observable.set
  split
  · rfl
  · rename_i h
    simp only [ne_eq, not_not] at h
    exact h.symm

/-- An assignment does not change the subscribers. -/
theorem observable.observers_set {α : Type} [DecidableEq α] (o : observable α) (v : α) :
    (o.set v).1.observers_ = o.observers_ := by
  unfold observable.set
  split <;> rfl

/-- Assigning the stored value changes nothing and invokes no subscriber. -/
theorem observable.set_same {α : Type} [DecidableEq α] (o : observable α) (v : α)
    (h : v = o.value_) : o.set v = (o, []) := by
  unfold observable.set
  simp [h]

/-- Occurrences of a subscriber among the first components of the invocations
made when every subscriber of a list is handed the same value. -/
theorem count_map_fst {α : Type} (l : List Nat) (f : Nat) (v : α) :
    ((l.map (fun g => (g, v))).map Prod.fst).count f = l.count f := by
  rw [List.map_map]
  have h : (Prod.fst ∘ fun g : Nat => (g, v)) = id := rfl
  rw [h, List.map_id]

/-- The assignment `set` is `assign` with the comparison that decides
inequality. -/
theorem observable.set_eq_assign {α : Type} [DecidableEq α] (o : observable α) (v : α) :
    o.set v = o.assign (fun a b => decide (a ≠ b)) v := by
  unfold observable.set observable.assign
  by_cases h : v = o.value_ <;> simp [h]

/-- An assignment whose comparison reports a difference stores the value and
hands it to every subscriber in subscription order. -/
theorem observable.assign_differs {α : Type} (ne : α → α → Bool) (o : observable α) (v : α)
    (h : ne v o.value_ = true) :
    o.assign ne v = ({ o with value_ := v }, o.observers_.map (fun f => (f, v))) := by
  unfold observable.assign
  rw [if_pos h]

/-- An assignment whose comparison reports no difference changes nothing and
invokes no subscriber. -/
theorem observable.assign_same {α : Type} (ne : α → α → Bool) (o : observable α) (v : α)
    (h : ne v o.value_ = false) : o.assign ne v = (o, []) := by
  unfold observable.assign
  simp [h]

/-- Repeating an assignment of a value that compares equal to itself changes
nothing and invokes no subscriber. -/
theorem observable.assign_again {α : Type} (ne : α → α → Bool) (o : observable α) (v : α)
    (hv : ne v v = false) :
    (o.assign ne v).1.assign ne v = ((o.assign ne v).1, []) := by
  cases h : ne v o.value_ with
  | true =>
    rw [observable.assign_differs ne o v h]
    exact observable.assign_same ne _ v hv
  | false =>
    rw [observable.assign_same ne o v h]
    exact observable.assign_same ne o v h

/-- A `float` value compares equal to itself exactly when it is not NaN. -/
theorem cfloat.ne_self (p : cfloat) : cfloat.ne p p = false ↔ p ≠ cfloat.nan := by
  cases p with
  | num q => simp [cfloat.ne]
  | inf a => simp [cfloat.ne]
  | nan => simp [cfloat.ne]

/-- Claim C5, amended. Change-gated notification: for every observable domain
field of the component and every value `v` that compares equal to itself (every
value of the integer, boolean and enumeration fields, and every `float` except
NaN), setting the field to `v` twice in a row invokes each subscriber exactly
once (on the first set, with `v`, in subscription order) if `v` differs from the
stored value, and not at all on the second set; setting a value equal to the
stored one invokes no subscriber. For the `float` field `door_position` written
through `set_door_position` this holds for every argument other than NaN. -/
theorem observable_set_change_gated {α : Type} (ne : α → α → Bool) (o : observable α) (v : α)
    (hv : ne v v = false) (d : observable cfloat) (p : cfloat) (hp : p ≠ cfloat.nan)
    {β : Type} [DecidableEq β] (e : observable β) (w : β) :
    (((o.assign ne v).1.assign ne v).2 = [] ∧
      ((o.assign ne v).1.assign ne v).1 = (o.assign ne v).1 ∧
      (ne v o.value_ = true →
        (o.assign ne v).1.value_ = v ∧
        (o.assign ne v).2 = o.observers_.map (fun f => (f, v)) ∧
        (o.assign ne v).2.length = o.observers_.length ∧
        ∀ f : Nat, (((o.assign ne v).2 ++ ((o.assign ne v).1.assign ne v).2).map
          Prod.fst).count f = o.observers_.count f) ∧
      (ne v o.value_ = false → (o.assign ne v).2 = [] ∧ (o.assign ne v).1 = o)) ∧
    (cfloat.ne p p = false ∧
      (set_door_position_float (set_door_position_float d p).1 p).2 = [] ∧
      (cfloat.ne p d.value_ = true →
        (set_door_position_float d p).1.value_ = p ∧
        (set_door_position_float d p).2 = d.observers_.map (fun f => (f, p))) ∧
      (cfloat.ne p d.value_ = false → (set_door_position_float d p).2 = [])) ∧
    (((e.set w).1.set w).2 = [] ∧
      (e.set w).1.value_ = w ∧
      (w ≠ e.value_ → (e.set w).2 = e.observers_.map (fun f => (f, w))) ∧
      (w = e.value_ → (e.set w).2 = [] ∧ (e.set w).1 = e)) := by
  have generic : ∀ {γ : Type} (ne : γ → γ → Bool) (o : observable γ) (v : γ),
      ne v v = false →
      ((o.assign ne v).1.assign ne v).2 = [] ∧
      ((o.assign ne v).1.assign ne v).1 = (o.assign ne v).1 ∧
      (ne v o.value_ = true →
        (o.assign ne v).1.value_ = v ∧
        (o.assign ne v).2 = o.observers_.map (fun f => (f, v)) ∧
        (o.assign ne v).2.length = o.observers_.length ∧
        ∀ f : Nat, (((o.assign ne v).2 ++ ((o.assign ne v).1.assign ne v).2).map
          Prod.fst).count f = o.observers_.count f) ∧
      (ne v o.value_ = false → (o.assign ne v).2 = [] ∧ (o.assign ne v).1 = o) := by
    intro γ ne o v hv
    have h2 := observable.assign_again ne o v hv
    refine ⟨by rw [h2], by rw [h2], ?_, ?_⟩
    · intro h
      rw [h2, List.append_nil, observable.assign_differs ne o v h]
      refine ⟨rfl, rfl, List.length_map _ _, fun f => count_map_fst _ f v⟩
    · intro h
      rw [observable.assign_same ne o v h]
      exact ⟨rfl, rfl⟩
  have hpp : cfloat.ne p p = false := (cfloat.ne_self p).2 hp
  have gf := generic cfloat.ne d p hpp
  have hww : (fun a b : β => decide (a ≠ b)) w w = false := by simp
  have ge := generic (fun a b : β => decide (a ≠ b)) e w hww
  simp only [← observable.set_eq_assign] at ge
  refine ⟨generic ne o v hv, ⟨hpp, gf.1, fun h => ⟨(gf.2.2.1 h).1, (gf.2.2.1 h).2.1⟩,
    fun h => (gf.2.2.2 h).1⟩, ge.1, observable.value_set e w, ?_, ?_⟩
  · intro h
    exact (ge.2.2.1 (by simpa using h)).2.1
  · intro h
    exact ge.2.2.2 (by simpa using h)

/-- Witness of C5 (amended): `door_position` holding the sentinel with two
subscribers, set to one half twice; `ttc_time_seconds` of a fresh component with
two subscribers, set to 120 twice. -/
theorem observable_set_change_gated_witness :
    cfloat.ne (cfloat.num (1 / 2)) (cfloat.num (1 / 2)) = false ∧
    cfloat.num (1 / 2) ≠ cfloat.nan ∧
    (set_door_position_float
      { value_ := cfloat.num (-1), observers_ := [0, 1] } (cfloat.num (1 / 2))).2 =
      [(0, cfloat.num (1 / 2)), (1, cfloat.num (1 / 2))] ∧
    (set_door_position_float
      (set_door_position_float
        { value_ := cfloat.num (-1), observers_ := [0, 1] } (cfloat.num (1 / 2))).1
      (cfloat.num (1 / 2))).2 = [] ∧
    (((RATGDOComponent.init.ttc_time_seconds.subscribe 0).subscribe 1).set 120).2 =
      [(0, 120), (1, 120)] ∧
    (((((RATGDOComponent.init.ttc_time_seconds.subscribe 0).subscribe 1).set 120).1).set 120).2
      = [] :=
  have hv : cfloat.ne (cfloat.num (1 / 2)) (cfloat.num (1 / 2)) = false := by simp [cfloat.ne]
  have hp : cfloat.num (1 / 2) ≠ cfloat.nan := by simp
  have hd : cfloat.ne (cfloat.num (1 / 2)) (cfloat.num (-1)) = true := by
    simp only [cfloat.ne]; norm_num
  have T := observable_set_change_gated cfloat.ne
    { value_ := cfloat.num (-1), observers_ := [0, 1] } (cfloat.num (1 / 2)) hv
    { value_ := cfloat.num (-1), observers_ := [0, 1] } (cfloat.num (1 / 2)) hp
    ((RATGDOComponent.init.ttc_time_seconds.subscribe 0).subscribe 1) 120
  ⟨hv, hp, (T.2.1.2.2.1 hd).2, T.2.1.2.1, T.2.2.2.2.1 (by decide), T.2.2.1⟩

/-- Counterexample to C5 as stated: on the `float` field `door_position` with two
subscribers, `set_door_position(NaN)` twice in a row invokes both subscribers on
the first set and both again on the second set, because NaN differs from the
stored NaN. -/
theorem set_door_position_nan_notifies_again :
    (set_door_position_float
      { value_ := cfloat.num (-1), observers_ := [0, 1] } cfloat.nan).2 =
      [(0, cfloat.nan), (1, cfloat.nan)] ∧
    (set_door_position_float
      { value_ := cfloat.num (-1), observers_ := [0, 1] } cfloat.nan).1.value_ = cfloat.nan ∧
    (set_door_position_float
      (set_door_position_float
        { value_ := cfloat.num (-1), observers_ := [0, 1] } cfloat.nan).1 cfloat.nan).2 =
      [(0, cfloat.nan), (1, cfloat.nan)] ∧
    (set_door_position_float
      (set_door_position_float
        { value_ := cfloat.num (-1), observers_ := [0, 1] } cfloat.nan).1 cfloat.nan).2 ≠ [] :=
  ⟨rfl, rfl, rfl, by simp [set_door_position_float, observable.assign, cfloat.ne]⟩

/-! ## The rolling code counter -/

/-- The position stored by `set_door_position` is its argument. -/
theorem door_position_set (c : RATGDOComponent) (p : ℚ) :
    (c.set_door_position p).1.door_position.value_ = p := by
  unfold RATGDOComponent.set_door_position
  exact observable.value_set _ _

/-- A clamped value lies between the bounds. -/
theorem clamp_mem (x lo hi : ℚ) (h : lo ≤ hi) :
    lo ≤ RATGDOComponent.clamp x lo hi ∧ RATGDOComponent.clamp x lo hi ≤ hi := by
  unfold RATGDOComponent.clamp
  split_ifs with h1 h2
  · exact ⟨le_refl _, h⟩
  · exact ⟨h, le_refl _⟩
  · exact ⟨not_lt.mp h1, not_lt.mp h2⟩

/-- The position stored by `door_position_update` when a calibration exists. -/
theorem door_position_update_calibrated (rnd : ℚ → ℚ) (c : RATGDOComponent)
    (elapsed calibrated_duration direction : ℚ) (h : calibrated_duration ≠ 0) :
    (RATGDOComponent.door_position_update rnd c elapsed calibrated_duration
        direction).1.door_position.value_ =
      RATGDOComponent.clamp (rnd (c.door_start_position +
        rnd (rnd (elapsed / calibrated_duration) * direction))) 0 1 := by
  unfold RATGDOComponent.door_position_update
  rw [if_neg h]
  exact observable.value_set _ _

/-- Claim C2, amended. Door position range: in the initial state the stored
`door_position` is the sentinel `DOOR_POSITION_UNKNOWN`; `set_door_position(p)`
stores `p` unchanged, so after it the stored position is in [0.0, 1.0] or the
sentinel exactly when `p` is; `door_position_update()` keeps a stored position
that is in [0.0, 1.0] or the sentinel within that range, and with a calibration
its output lies in [0.0, 1.0] whatever the elapsed time. -/
theorem door_position_range (c : RATGDOComponent) (p : ℚ) (rnd : ℚ → ℚ)
    (elapsed calibrated_duration direction : ℚ) :
    RATGDOComponent.init.door_position.value_ = DOOR_POSITION_UNKNOWN ∧
    RATGDOComponent.position_in_range RATGDOComponent.init.door_position.value_ ∧
    (c.set_door_position p).1.door_position.value_ = p ∧
    (RATGDOComponent.position_in_range (c.set_door_position p).1.door_position.value_ ↔
      RATGDOComponent.position_in_range p) ∧
    (RATGDOComponent.position_in_range c.door_position.value_ →
      RATGDOComponent.position_in_range
        (RATGDOComponent.door_position_update rnd c elapsed calibrated_duration
          direction).1.door_position.value_) ∧
    (calibrated_duration ≠ 0 →
      0 ≤ (RATGDOComponent.door_position_update rnd c elapsed calibrated_duration
          direction).1.door_position.value_ ∧
      (RATGDOComponent.door_position_update rnd c elapsed calibrated_duration
          direction).1.door_position.value_ ≤ 1) := by
  have hcal : calibrated_duration ≠ 0 →
      0 ≤ (RATGDOComponent.door_position_update rnd c elapsed calibrated_duration
          direction).1.door_position.value_ ∧
      (RATGDOComponent.door_position_update rnd c elapsed calibrated_duration
          direction).1.door_position.value_ ≤ 1 := by
    intro h
    rw [door_position_update_calibrated rnd c elapsed calibrated_duration direction h]
    exact clamp_mem _ 0 1 zero_le_one
  refine ⟨rfl, Or.inr rfl, door_position_set c p, ?_, ?_, hcal⟩
  · rw [door_position_set]
  · intro hin
    by_cases h : calibrated_duration = 0
    · have hsame : RATGDOComponent.door_position_update rnd c elapsed calibrated_duration
          direction = (c, []) := by
        unfold RATGDOComponent.door_position_update
        rw [if_pos h]
      rw [hsame]
      exact hin
    · exact Or.inl (hcal h)

/-- Witness of C2 (amended): on a fresh component, a door that started at
position one half and has been opening for three times the calibrated
duration. -/
theorem door_position_range_witness :
    RATGDOComponent.position_in_range RATGDOComponent.init.door_position.value_ ∧
    ((10 : ℚ) ≠ 0) ∧
    RATGDOComponent.position_in_range
      (RATGDOComponent.door_position_update id
        { RATGDOComponent.init with door_start_position := 1 / 2 } 30 10
        1).1.door_position.value_ ∧
    (RATGDOComponent.door_position_update id
        { RATGDOComponent.init with door_start_position := 1 / 2 } 30 10
        1).1.door_position.value_ ≤ 1 :=
  ⟨Or.inr rfl, by norm_num,
   (door_position_range { RATGDOComponent.init with door_start_position := 1 / 2 }
      (1 / 2) id 30 10 1).2.2.2.2.1 (Or.inr rfl),
   ((door_position_range { RATGDOComponent.init with door_start_position := 1 / 2 }
      (1 / 2) id 30 10 1).2.2.2.2.2 (by norm_num)).2⟩

/-- Counterexample to C2 as stated: `set_door_position(2.0)` on a fresh
component stores `2.0`, which is neither in [0.0, 1.0] nor the sentinel
`-1.0`. -/
theorem set_door_position_out_of_range :
    (RATGDOComponent.init.set_door_position 2).1.door_position.value_ = 2 ∧
    ¬ RATGDOComponent.position_in_range
      (RATGDOComponent.init.set_door_position 2).1.door_position.value_ := by
  have h : (RATGDOComponent.init.set_door_position 2).1.door_position.value_ = 2 :=
    observable.value_set _ _
  refine ⟨h, ?_⟩
  rw [h]
  unfold RATGDOComponent.position_in_range DOOR_POSITION_UNKNOWN
  norm_num

/-- Claim C10. The two float sentinels cannot collide with genuine values or
with each other: `DOOR_POSITION_UNKNOWN` (-1.0) is not in [0.0, 1.0]; for every
pair of positions `p`, `q` in [0.0, 1.0] the travel distance `p - q`, exact or
rounded by a monotone rounding that keeps `-1.0` and `1.0`, lies in
[-1.0, 1.0] and therefore never equals `DOOR_DELTA_UNKNOWN` (-2.0); and
`DOOR_POSITION_UNKNOWN` differs from `DOOR_DELTA_UNKNOWN`. -/
theorem sentinels_do_not_collide (rnd : ℚ → ℚ) (hmono : Monotone rnd)
    (hneg : rnd (-1) = -1) (hone : rnd 1 = 1) (p q : ℚ)
    (hp : 0 ≤ p ∧ p ≤ 1) (hq : 0 ≤ q ∧ q ≤ 1) :
    ¬ (0 ≤ DOOR_POSITION_UNKNOWN ∧ DOOR_POSITION_UNKNOWN ≤ 1) ∧
    (-1 ≤ p - q ∧ p - q ≤ 1) ∧
    p - q ≠ DOOR_DELTA_UNKNOWN ∧
    (-1 ≤ RATGDOComponent.travel_distance rnd p q ∧
      RATGDOComponent.travel_distance rnd p q ≤ 1) ∧
    RATGDOComponent.travel_distance rnd p q ≠ DOOR_DELTA_UNKNOWN ∧
    DOOR_POSITION_UNKNOWN ≠ DOOR_DELTA_UNKNOWN := by
  have hlo : -1 ≤ p - q := by linarith [hp.1, hq.2]
  have hhi : p - q ≤ 1 := by linarith [hp.2, hq.1]
  have rlo : -1 ≤ RATGDOComponent.travel_distance rnd p q := by
    have := hmono hlo
    rw [hneg] at this
    exact this
  have rhi : RATGDOComponent.travel_distance rnd p q ≤ 1 := by
    have := hmono hhi
    rw [hone] at this
    exact this
  unfold DOOR_POSITION_UNKNOWN DOOR_DELTA_UNKNOWN
  refine ⟨by norm_num, ⟨hlo, hhi⟩, ?_, ⟨rlo, rhi⟩, ?_, by norm_num⟩
  · intro h
    rw [h] at hlo
    norm_num at hlo
  · intro h
    rw [h] at rlo
    norm_num at rlo

/-- Witness of C10 with exact arithmetic at the extreme pair `p = 0`, `q = 1`,
whose travel distance is `-1.0`. -/
theorem sentinels_do_not_collide_witness :
    Monotone (id : ℚ → ℚ) ∧ ((0 : ℚ) ≤ 0 ∧ (0 : ℚ) ≤ 1) ∧ ((0 : ℚ) ≤ 1 ∧ (1 : ℚ) ≤ 1) ∧
    RATGDOComponent.travel_distance id 0 1 ≠ DOOR_DELTA_UNKNOWN ∧
    DOOR_POSITION_UNKNOWN ≠ DOOR_DELTA_UNKNOWN :=
  ⟨monotone_id, ⟨le_refl _, zero_le_one⟩, ⟨zero_le_one, le_refl _⟩,
   (sentinels_do_not_collide id monotone_id rfl rfl 0 1
      ⟨le_refl _, zero_le_one⟩ ⟨zero_le_one, le_refl _⟩).2.2.2.2.1,
   (sentinels_do_not_collide id monotone_id rfl rfl 0 1
      ⟨le_refl _, zero_le_one⟩ ⟨zero_le_one, le_refl _⟩).2.2.2.2.2⟩

end ratgdo
end esphome
